import Mathlib

/-!
Shallow embedding of the supplier-administration route handlers of
`app/main/views/suppliers.py` (digitalmarketplace-admin-frontend).

Each HTTP handler is modelled as a pure function from its request inputs and
the data returned by its external collaborators (the data API client, the S3
agreements bucket, the content-manifest engine) to a pair of

  * a `List Event` — the ordered trace of calls the handler issues to its
    collaborators (reads and writes) together with the messages it flashes, and
  * a `Response` — redirect, abort-with-status, or template render.

External collaborators are opaque boundaries: their outputs appear as
parameters of the handler (e.g. the `SupplierFramework` record returned by
`get_supplier_framework_info`, the result of `file_is_pdf` content sniffing,
the filtered-manifest engine as a record of functions).  The S3 `delete_key`
call is best-effort (a delete of an absent key is not an error); its outcome is
recorded on the `deleteKey` event as a Boolean that the handler never
consults, mirroring the Python code which ignores `delete_key`'s result.
-/

namespace DMAdminSuppliers

/-! ### Message constants (suppliers.py lines 43-61).
Python `str.format` templates become functions of their substituted fields,
concatenated in source order. -/

def UPLOAD_COUNTERSIGNED_AGREEMENT_MESSAGE : String :=
  "Countersigned agreement file was uploaded"

def COUNTERSIGNED_AGREEMENT_NOT_PDF_MESSAGE : String :=
  "Countersigned agreement file is not a PDF"

def SUPPLIER_SERVICES_REMOVED_MESSAGE (framework_name supplier_name : String) : String :=
  "You suspended all " ++ framework_name ++ " services for ‘" ++ supplier_name ++ "’."

def SUPPLIER_SERVICES_UNSUSPENDED_MESSAGE (framework_name supplier_name : String) : String :=
  "You unsuspended all " ++ framework_name ++ " services for ‘" ++ supplier_name ++ "’."

def SUPPLIER_SERVICES_DELAYED_INDEX_MESSAGE : String :=
  "Search results may take a few minutes to be updated."

/-! ### Effect traces and responses -/

/-- One call issued by a handler to an external collaborator, or a flashed
user-visible message, in the order the Python code performs them. -/
inductive Event where
  | getSupplierFrameworkInfo (supplier_id : Nat) (framework_slug : String)
  | getSupplier (supplier_id : Nat)
  | getFramework (framework_slug : String)
  | getSupplierDeclaration (supplier_id : Nat) (framework_slug : String)
  | findServices (supplier_id : Nat) (framework_slug : String) (status : String)
  | filterManifest (framework_slug : String) (manifest_kind : String)
  | approveAgreementForCountersignature (agreement_id : String)
  | saveKey (path : String)
  | updateFrameworkAgreement (agreement_id : String) (countersignedAgreementPath : Option String)
  | createAuditEvent (audit_type : String) (object_id : Nat) (data_path : Option String)
  | flashMessage (message : String)
  | deleteKey (path : Option String) (succeeded : Bool)
  | setSupplierDeclaration (supplier_id : Nat) (framework_slug : String)
      (declaration : List (String × String))
  | updateServiceStatus (service_id : String) (new_status : String)
deriving Repr, DecidableEq

/-- The handler's HTTP outcome. -/
inductive Response where
  | redirect (endpoint : String)
  | abortWith (status : Nat)
  | render (template : String) (status : Nat)
deriving Repr, DecidableEq

/-- True for `deleteKey` events (object-storage delete calls). -/
def isDeleteKey : Event → Bool
  | Event.deleteKey _ _ => true
  | _ => false

/-- True for `flashMessage` events. -/
def isFlashMessage : Event → Bool
  | Event.flashMessage _ => true
  | _ => false

inductive HttpMethod where
  | get
  | post
deriving Repr, DecidableEq

/-! ### Data returned by external collaborators -/

/-- The fields of the `frameworkInterest` record returned by
`get_supplier_framework_info` that these handlers consult.
`agreementStatus` is `none` for JSON null; `declarationName` is
`declaration.get('nameOfOrganisation')`, `none` when absent or null
(Python falsiness of `None` and of the empty string is modelled
explicitly where the code tests it). -/
structure SupplierFramework where
  onFramework : Bool
  agreementStatus : Option String
  agreementId : String
  countersignedPath : Option String
  declarationName : Option String
deriving Repr, DecidableEq

/-- An uploaded file as the handler observes it: only the result of
`file_is_pdf` content sniffing matters to the control flow. -/
structure FileUpload where
  isPdf : Bool
deriving Repr, DecidableEq

/-! ### POST upload_countersigned_agreement_file (suppliers.py lines 555-611) -/

/-- Embedding of `upload_countersigned_agreement_file` (POST).
`uploadedFile` is `request.files.get('countersigned_agreement')`
(`none` when the field is absent); `uploadPath` is the result of
`generate_timestamped_document_upload_path` (external, timestamp-dependent). -/
def upload_countersigned_agreement_file (supplier_id : Nat) (framework_slug : String)
    (sf : SupplierFramework) (uploadedFile : Option FileUpload) (uploadPath : String) :
    List Event × Response :=
  let tr0 := [Event.getSupplierFrameworkInfo supplier_id framework_slug]
  if sf.onFramework = false ∨ sf.agreementStatus = none ∨ sf.agreementStatus = some "draft" then
    (tr0, Response.abortWith 404)
  else
    match uploadedFile with
    | none => (tr0, Response.redirect "list_countersigned_agreement_file")
    | some f =>
      if f.isPdf = false then
        (tr0 ++ [Event.flashMessage COUNTERSIGNED_AGREEMENT_NOT_PDF_MESSAGE],
         Response.redirect "list_countersigned_agreement_file")
      else
        let nameLookup : List Event :=
          match sf.declarationName with
          | some n => if n = "" then [Event.getSupplier supplier_id] else []
          | none => [Event.getSupplier supplier_id]
        let approveStep : List Event :=
          if sf.agreementStatus = some "approved" ∨ sf.agreementStatus = some "countersigned" then
            []
          else
            [Event.approveAgreementForCountersignature sf.agreementId]
        (tr0 ++ nameLookup ++ approveStep ++
          [Event.saveKey uploadPath,
           Event.updateFrameworkAgreement sf.agreementId (some uploadPath),
           Event.createAuditEvent "upload_countersigned_agreement" supplier_id (some uploadPath),
           Event.flashMessage UPLOAD_COUNTERSIGNED_AGREEMENT_MESSAGE],
         Response.redirect "list_countersigned_agreement_file")

/-! ### remove_countersigned_agreement_file (suppliers.py lines 614-652) -/

/-- Embedding of `remove_countersigned_agreement_file`.
On GET the handler only redirects to the confirmation page.  On POST it
clears `countersignedAgreementPath` in the API, then deletes the stored
object, then records the audit event.  `deleteSucceeded` is the
best-effort outcome of `delete_key`, which the code ignores. -/
def remove_countersigned_agreement_file (method : HttpMethod) (supplier_id : Nat)
    (framework_slug : String) (sf : SupplierFramework) (deleteSucceeded : Bool) :
    List Event × Response :=
  let tr0 := [Event.getSupplierFrameworkInfo supplier_id framework_slug]
  match method with
  | HttpMethod.get =>
    (tr0, Response.redirect "list_countersigned_agreement_file?remove_countersigned_agreement=true")
  | HttpMethod.post =>
    (tr0 ++
      [Event.updateFrameworkAgreement sf.agreementId none,
       Event.deleteKey sf.countersignedPath deleteSucceeded,
       Event.createAuditEvent "delete_countersigned_agreement" supplier_id sf.countersignedPath],
     Response.redirect "list_countersigned_agreement_file")

/-! ### Declaration-section editor (suppliers.py lines 655-716) -/

/-- Python `dict.update`: existing keys take the posted value in place,
new posted keys are appended in order. -/
def dictUpdate (d posted : List (String × String)) : List (String × String) :=
  (d.map fun kv =>
    match posted.lookup kv.1 with
    | some v => (kv.1, v)
    | none => kv) ++
  posted.filter (fun kv => (d.lookup kv.1).isNone)

/-- One section of the filtered declaration manifest, as the content-manifest
engine (dmcontent, external) presents it: `get_data` extracts the posted
answers scoped to this section from the form, `has_changes_to_save` compares
stored and posted answers. -/
structure ManifestSection where
  get_data : List (String × String) → List (String × String)
  has_changes_to_save : List (String × String) → List (String × String) → Bool

/-- The result of `content_loader.get_manifest(slug, 'declaration').filter(...)`:
section lookup by id. -/
structure FilteredContent where
  get_section : String → Option ManifestSection

/-- The declaration manifest before filtering: `filter` specialises it to the
supplier's current answers. -/
structure DeclarationManifest where
  filter : List (String × String) → FilteredContent

/-- Embedding of `edit_supplier_declaration_section` (GET).
`frameworkStatus` is `framework['status']` from `get_framework`;
`storedDeclaration` is the result of `get_supplier_declaration`, with the
API's 404 mapped to `none` (the code substitutes the empty declaration);
non-404 API errors propagate and are outside this embedding. -/
def edit_supplier_declaration_section (supplier_id : Nat) (framework_slug : String)
    (frameworkStatus : String) (storedDeclaration : Option (List (String × String)))
    (manifest : DeclarationManifest) (section_id : String) : List Event × Response :=
  let tr0 := [Event.getSupplier supplier_id, Event.getFramework framework_slug]
  if frameworkStatus ∉ ["pending", "standstill", "live"] then
    (tr0, Response.abortWith 403)
  else
    let declaration := storedDeclaration.getD []
    let tr1 := tr0 ++
      [Event.getSupplierDeclaration supplier_id framework_slug,
       Event.filterManifest framework_slug "declaration"]
    match (manifest.filter declaration).get_section section_id with
    | none => (tr1, Response.abortWith 404)
    | some _ => (tr1, Response.render "suppliers/edit_declaration.html" 200)

/-- Embedding of `update_supplier_declaration_section` (POST).
`form` is `request.form`.  When the section reports changes to save, the
posted answers are merged into the whole declaration and the complete mapping
is written back with `set_supplier_declaration`. -/
def update_supplier_declaration_section (supplier_id : Nat) (framework_slug : String)
    (frameworkStatus : String) (storedDeclaration : Option (List (String × String)))
    (manifest : DeclarationManifest) (section_id : String)
    (form : List (String × String)) : List Event × Response :=
  let tr0 := [Event.getSupplier supplier_id, Event.getFramework framework_slug]
  if frameworkStatus ∉ ["pending", "standstill", "live"] then
    (tr0, Response.abortWith 403)
  else
    let declaration := storedDeclaration.getD []
    let tr1 := tr0 ++
      [Event.getSupplierDeclaration supplier_id framework_slug,
       Event.filterManifest framework_slug "declaration"]
    match (manifest.filter declaration).get_section section_id with
    | none => (tr1, Response.abortWith 404)
    | some sec =>
      let posted_data := sec.get_data form
      if sec.has_changes_to_save declaration posted_data then
        (tr1 ++ [Event.setSupplierDeclaration supplier_id framework_slug
                  (dictUpdate declaration posted_data)],
         Response.redirect "view_supplier_declaration")
      else
        (tr1, Response.redirect "view_supplier_declaration")

/-! ### POST toggle_supplier_services (suppliers.py lines 860-904) -/

/-- The fields of a service record that `toggle_supplier_services` reads. -/
structure Service where
  id : String
  supplierName : String
  frameworkName : String
deriving Repr, DecidableEq

/-- Embedding of `toggle_supplier_services` (POST).
`removeArg` / `publishArg` are the `remove` / `publish` query arguments
(`none` for absent or empty, which Python treats as falsy).  `services` is
the tuple returned by `find_services_iter` filtered to the old status under
the target framework. -/
def toggle_supplier_services (supplier_id : Nat)
    (removeArg publishArg : Option String) (frameworkStatus : String)
    (services : List Service) : List Event × Response :=
  let framework_slug :=
    match removeArg with
    | some s => some s
    | none => publishArg
  let old_status := if removeArg.isSome then "published" else "disabled"
  let new_status := if removeArg.isSome then "disabled" else "published"
  match framework_slug with
  | none => ([], Response.abortWith 400)
  | some slug =>
    let tr0 := [Event.getFramework slug]
    if frameworkStatus ≠ "live" then
      (tr0, Response.abortWith 400)
    else
      let tr1 := tr0 ++ [Event.findServices supplier_id slug old_status]
      match services with
      | [] => (tr1, Response.abortWith 400)
      | s0 :: _ =>
        let message_base :=
          if removeArg.isSome then
            SUPPLIER_SERVICES_REMOVED_MESSAGE s0.frameworkName s0.supplierName
          else
            SUPPLIER_SERVICES_UNSUSPENDED_MESSAGE s0.frameworkName s0.supplierName
        (tr1 ++ services.map (fun s => Event.updateServiceStatus s.id new_status) ++
          [Event.flashMessage (message_base ++ " " ++ SUPPLIER_SERVICES_DELAYED_INDEX_MESSAGE)],
         Response.redirect "find_supplier_services")

/-! ### edit_supplier_registered_company_number (suppliers.py lines 193-256) -/

/-- The two company-number fields of the supplier update payload. -/
structure UpdateSupplierPayload where
  companiesHouseNumber : Option String
  otherCompanyRegistrationNumber : Option String
deriving Repr, DecidableEq

/-- Python truthiness of a nullable string form field: null and the empty
string are falsy. -/
def optionTruthy : Option String → Bool
  | none => false
  | some s => !(s == "")

/-- The registered-company-number form fields, as WTForms data:
`none` for a missing value. -/
structure CompanyRegistrationNumberForm where
  companies_house_number : Option String
  other_company_registration_number : Option String
deriving Repr, DecidableEq

/-- Modelled from the spec: `EditSupplierCompanyRegistrationNumberForm`
(app/main/forms, not part of the sources here) validates the two fields as a
mutually exclusive variant — "company number variant [Companies-House number
XOR other registration number]" — so a form that passes validation has
exactly one of the two fields populated (Python-truthy). -/
def companyRegistrationNumberFormValid (f : CompanyRegistrationNumberForm) : Prop :=
  (optionTruthy f.companies_house_number = true ∧
    optionTruthy f.other_company_registration_number = false) ∨
  (optionTruthy f.companies_house_number = false ∧
    optionTruthy f.other_company_registration_number = true)

/-- The `update_supplier_payload` computed by
`edit_supplier_registered_company_number` on a validated submission
(suppliers.py lines 206-222): a truthy Companies-House number is upper-cased
and clears the other field; otherwise the other registration number is kept
and the Companies-House number is cleared. -/
def update_supplier_payload_for_company_number (f : CompanyRegistrationNumberForm) :
    UpdateSupplierPayload :=
  match f.companies_house_number with
  | some ch =>
    if ch ≠ "" then
      { companiesHouseNumber := some ch.toUpper, otherCompanyRegistrationNumber := none }
    else
      { companiesHouseNumber := none,
        otherCompanyRegistrationNumber := f.other_company_registration_number }
  | none =>
    { companiesHouseNumber := none,
      otherCompanyRegistrationNumber := f.other_company_registration_number }

/-! ### Draft-service completeness annotation (suppliers.py lines 907-949) -/

/-- The fields of a draft-service record used by grouping and annotation;
`content` stands for the remaining fields spread into the annotated copy. -/
structure DraftService where
  frameworkSlug : String
  createdAt : String
  content : List (String × String)
deriving Repr, DecidableEq

/-- The "edit_service_as_admin" manifest for one framework, collapsed to the
composition the code applies per draft:
`count_unanswered_questions(manifest.filter(draft).summary(draft))[0]`. -/
structure AdminServiceManifest where
  countUnanswered : DraftService → Nat

/-- A draft service annotated with its `unansweredRequiredCount`. -/
structure AnnotatedDraftService where
  draft : DraftService
  unansweredRequiredCount : Nat
deriving Repr, DecidableEq

/-- Embedding of `_draft_services_annotated_unanswered_counts`.
`get_manifest` is `content_loader.get_manifest(slug, "edit_service_as_admin")`
with `ContentNotFoundError` mapped to `none`; the function returns `none` in
that case and otherwise annotates every draft with its unanswered count. -/
def _draft_services_annotated_unanswered_counts
    (get_manifest : String → Option AdminServiceManifest)
    (framework_slug : String) (draft_services : List DraftService) :
    Option (List AnnotatedDraftService) :=
  match get_manifest framework_slug with
  | none => none
  | some manifest =>
    some (draft_services.map fun ds =>
      { draft := ds, unansweredRequiredCount := manifest.countUnanswered ds })

/-- The `frameworks_draft_services` mapping built by
`find_supplier_draft_services`: `groups` is the output of
`groupby(sorted(drafts, key=(frameworkSlug, createdAt)), key=frameworkSlug)`
(Python stdlib applied to the API's draft list); entries whose manifest could
not be retrieved are omitted. -/
def frameworks_draft_services
    (get_manifest : String → Option AdminServiceManifest)
    (groups : List (String × List DraftService)) :
    List (String × List AnnotatedDraftService) :=
  groups.filterMap fun g =>
    match _draft_services_annotated_unanswered_counts get_manifest g.1 g.2 with
    | none => none
    | some annotated => some (g.1, annotated)

/-! ### Sample collaborator data used by witnesses -/

/-- A supplier-framework record that passes the upload/remove guards. -/
def sampleSF : SupplierFramework :=
  { onFramework := true, agreementStatus := some "signed", agreementId := "1234",
    countersignedPath := some "g-cloud-9/agreements/1/1-agreement.pdf",
    declarationName := some "ACME Ltd" }

/-! ### Theorems -/

/-- C1: in the POST branch of `remove_countersigned_agreement_file`, the
durable-state call clearing `countersignedAgreementPath` is issued strictly
before the object-storage `delete_key` call: the clearing update sits at an
earlier trace position than the delete, and it belongs to the prefix of calls
issued before any delete attempt — so in every execution in which `delete_key`
fails, the stored path reference has already been cleared. -/
theorem remove_countersigned_clears_reference_before_delete
    (supplier_id : Nat) (framework_slug : String) (sf : SupplierFramework)
    (deleteSucceeded : Bool) :
    ∃ i j : Nat, i < j ∧
      (remove_countersigned_agreement_file HttpMethod.post supplier_id framework_slug sf
        deleteSucceeded).1.get? i = some (Event.updateFrameworkAgreement sf.agreementId none) ∧
      (remove_countersigned_agreement_file HttpMethod.post supplier_id framework_slug sf
        deleteSucceeded).1.get? j = some (Event.deleteKey sf.countersignedPath deleteSucceeded) ∧
      Event.updateFrameworkAgreement sf.agreementId none ∈
        (remove_countersigned_agreement_file HttpMethod.post supplier_id framework_slug sf
          deleteSucceeded).1.takeWhile (fun e => !isDeleteKey e) := by
  refine ⟨1, 2, by omega, rfl, rfl, ?_⟩
  have h : (remove_countersigned_agreement_file HttpMethod.post supplier_id framework_slug sf
      deleteSucceeded).1.takeWhile (fun e => !isDeleteKey e) =
      [Event.getSupplierFrameworkInfo supplier_id framework_slug,
       Event.updateFrameworkAgreement sf.agreementId none] := rfl
  rw [h]
  simp

/-- C3: the POST branch of `remove_countersigned_agreement_file` records a
`delete_countersigned_agreement` audit event on every execution, for both
outcomes of the best-effort object-storage delete. -/
theorem remove_countersigned_audit_event_always
    (supplier_id : Nat) (framework_slug : String) (sf : SupplierFramework)
    (deleteSucceeded : Bool) :
    Event.createAuditEvent "delete_countersigned_agreement" supplier_id sf.countersignedPath ∈
      (remove_countersigned_agreement_file HttpMethod.post supplier_id framework_slug sf
        deleteSucceeded).1 := by
  simp [remove_countersigned_agreement_file]

/-- C2: a POST to `upload_countersigned_agreement_file` that passes the
onFramework/agreementStatus guard but whose attached file fails PDF content
sniffing flashes the "not a PDF" message and issues no state-changing call:
no approve transition, no object-storage save, no framework-agreement update
(so `countersignedPath` is unchanged), and no audit event; it redirects to
the countersigned-agreement listing. -/
theorem upload_non_pdf_rejected_without_side_effects
    (supplier_id : Nat) (framework_slug : String) (sf : SupplierFramework)
    (f : FileUpload) (uploadPath : String)
    (hOn : sf.onFramework = true)
    (hNone : sf.agreementStatus ≠ none)
    (hDraft : sf.agreementStatus ≠ some "draft")
    (hPdf : f.isPdf = false) :
    (∀ aid, Event.approveAgreementForCountersignature aid ∉
      (upload_countersigned_agreement_file supplier_id framework_slug sf (some f) uploadPath).1) ∧
    (∀ p, Event.saveKey p ∉
      (upload_countersigned_agreement_file supplier_id framework_slug sf (some f) uploadPath).1) ∧
    (∀ aid p, Event.updateFrameworkAgreement aid p ∉
      (upload_countersigned_agreement_file supplier_id framework_slug sf (some f) uploadPath).1) ∧
    (∀ t oid p, Event.createAuditEvent t oid p ∉
      (upload_countersigned_agreement_file supplier_id framework_slug sf (some f) uploadPath).1) ∧
    Event.flashMessage COUNTERSIGNED_AGREEMENT_NOT_PDF_MESSAGE ∈
      (upload_countersigned_agreement_file supplier_id framework_slug sf (some f) uploadPath).1 ∧
    (upload_countersigned_agreement_file supplier_id framework_slug sf (some f) uploadPath).2 =
      Response.redirect "list_countersigned_agreement_file" := by
  have hres : upload_countersigned_agreement_file supplier_id framework_slug sf (some f)
      uploadPath =
      ([Event.getSupplierFrameworkInfo supplier_id framework_slug,
        Event.flashMessage COUNTERSIGNED_AGREEMENT_NOT_PDF_MESSAGE],
       Response.redirect "list_countersigned_agreement_file") := by
    simp [upload_countersigned_agreement_file, hOn, hNone, hDraft, hPdf]
  refine ⟨?_, ?_, ?_, ?_, ?_, ?_⟩ <;> simp [hres]

/-- C2 witness: concrete non-PDF upload attempt. -/
theorem upload_non_pdf_rejected_without_side_effects_witness :
    sampleSF.onFramework = true ∧
    Event.flashMessage COUNTERSIGNED_AGREEMENT_NOT_PDF_MESSAGE ∈
      (upload_countersigned_agreement_file 1 "g-cloud-9" sampleSF
        (some { isPdf := false }) "path").1 ∧
    (upload_countersigned_agreement_file 1 "g-cloud-9" sampleSF
      (some { isPdf := false }) "path").2 =
      Response.redirect "list_countersigned_agreement_file" :=
  ⟨rfl,
   (upload_non_pdf_rejected_without_side_effects 1 "g-cloud-9" sampleSF
     { isPdf := false } "path" rfl (by decide) (by decide) rfl).2.2.2.2.1,
   (upload_non_pdf_rejected_without_side_effects 1 "g-cloud-9" sampleSF
     { isPdf := false } "path" rfl (by decide) (by decide) rfl).2.2.2.2.2⟩

/-- C10: a POST to `upload_countersigned_agreement_file` that passes the
onFramework/agreementStatus guard but carries no file under
`countersigned_agreement` issues only the initial supplier-framework read:
no approve transition, no storage save, no agreement update, no audit event
and no flashed message — and redirects to the countersigned-agreement
listing. -/
theorem upload_without_file_is_effect_free
    (supplier_id : Nat) (framework_slug : String) (sf : SupplierFramework)
    (uploadPath : String)
    (hOn : sf.onFramework = true)
    (hNone : sf.agreementStatus ≠ none)
    (hDraft : sf.agreementStatus ≠ some "draft") :
    (upload_countersigned_agreement_file supplier_id framework_slug sf none uploadPath).1 =
      [Event.getSupplierFrameworkInfo supplier_id framework_slug] ∧
    (∀ msg, Event.flashMessage msg ∉
      (upload_countersigned_agreement_file supplier_id framework_slug sf none uploadPath).1) ∧
    (∀ aid, Event.approveAgreementForCountersignature aid ∉
      (upload_countersigned_agreement_file supplier_id framework_slug sf none uploadPath).1) ∧
    (∀ p, Event.saveKey p ∉
      (upload_countersigned_agreement_file supplier_id framework_slug sf none uploadPath).1) ∧
    (∀ aid p, Event.updateFrameworkAgreement aid p ∉
      (upload_countersigned_agreement_file supplier_id framework_slug sf none uploadPath).1) ∧
    (∀ t oid p, Event.createAuditEvent t oid p ∉
      (upload_countersigned_agreement_file supplier_id framework_slug sf none uploadPath).1) ∧
    (upload_countersigned_agreement_file supplier_id framework_slug sf none uploadPath).2 =
      Response.redirect "list_countersigned_agreement_file" := by
  have hres : upload_countersigned_agreement_file supplier_id framework_slug sf none uploadPath =
      ([Event.getSupplierFrameworkInfo supplier_id framework_slug],
       Response.redirect "list_countersigned_agreement_file") := by
    simp [upload_countersigned_agreement_file, hOn, hNone, hDraft]
  refine ⟨?_, ?_, ?_, ?_, ?_, ?_, ?_⟩ <;> simp [hres]

/-- C10 witness: concrete file-less POST. -/
theorem upload_without_file_is_effect_free_witness :
    sampleSF.onFramework = true ∧
    (upload_countersigned_agreement_file 1 "g-cloud-9" sampleSF none "path").1 =
      [Event.getSupplierFrameworkInfo 1 "g-cloud-9"] ∧
    (upload_countersigned_agreement_file 1 "g-cloud-9" sampleSF none "path").2 =
      Response.redirect "list_countersigned_agreement_file" :=
  ⟨rfl,
   (upload_without_file_is_effect_free 1 "g-cloud-9" sampleSF "path" rfl
     (by decide) (by decide)).1,
   (upload_without_file_is_effect_free 1 "g-cloud-9" sampleSF "path" rfl
     (by decide) (by decide)).2.2.2.2.2.2⟩

/-- A manifest section whose engine reports no changes to save. -/
def sampleSection : ManifestSection :=
  { get_data := fun _ => [], has_changes_to_save := fun _ _ => false }

/-- A declaration manifest resolving every section id to `sampleSection`. -/
def sampleManifest : DeclarationManifest :=
  { filter := fun _ => { get_section := fun _ => some sampleSection } }

/-- C4: for a framework whose status is outside pending/standstill/live, both
the GET handler (`edit_supplier_declaration_section`) and the POST handler
(`update_supplier_declaration_section`) abort with 403, and neither trace
contains a manifest-filtering call or a declaration write. -/
theorem declaration_section_guard_forbids_outside_window
    (supplier_id : Nat) (framework_slug : String) (frameworkStatus : String)
    (storedDeclaration : Option (List (String × String)))
    (manifest : DeclarationManifest) (section_id : String) (form : List (String × String))
    (h : frameworkStatus ∉ ["pending", "standstill", "live"]) :
    (edit_supplier_declaration_section supplier_id framework_slug frameworkStatus
      storedDeclaration manifest section_id).2 = Response.abortWith 403 ∧
    (∀ slug kind, Event.filterManifest slug kind ∉
      (edit_supplier_declaration_section supplier_id framework_slug frameworkStatus
        storedDeclaration manifest section_id).1) ∧
    (∀ sid fs d, Event.setSupplierDeclaration sid fs d ∉
      (edit_supplier_declaration_section supplier_id framework_slug frameworkStatus
        storedDeclaration manifest section_id).1) ∧
    (update_supplier_declaration_section supplier_id framework_slug frameworkStatus
      storedDeclaration manifest section_id form).2 = Response.abortWith 403 ∧
    (∀ slug kind, Event.filterManifest slug kind ∉
      (update_supplier_declaration_section supplier_id framework_slug frameworkStatus
        storedDeclaration manifest section_id form).1) ∧
    (∀ sid fs d, Event.setSupplierDeclaration sid fs d ∉
      (update_supplier_declaration_section supplier_id framework_slug frameworkStatus
        storedDeclaration manifest section_id form).1) := by
  have he : edit_supplier_declaration_section supplier_id framework_slug frameworkStatus
      storedDeclaration manifest section_id =
      ([Event.getSupplier supplier_id, Event.getFramework framework_slug],
       Response.abortWith 403) := by
    simp [edit_supplier_declaration_section, h]
  have hu : update_supplier_declaration_section supplier_id framework_slug frameworkStatus
      storedDeclaration manifest section_id form =
      ([Event.getSupplier supplier_id, Event.getFramework framework_slug],
       Response.abortWith 403) := by
    simp [update_supplier_declaration_section, h]
  refine ⟨?_, ?_, ?_, ?_, ?_, ?_⟩ <;> simp [he, hu]

/-- C4 witness: an `expired` framework rejects both read and write with 403. -/
theorem declaration_section_guard_forbids_outside_window_witness :
    (edit_supplier_declaration_section 1 "g-cloud-7" "expired" none sampleManifest "sec").2 =
      Response.abortWith 403 ∧
    (update_supplier_declaration_section 1 "g-cloud-7" "expired" none sampleManifest
      "sec" []).2 = Response.abortWith 403 :=
  ⟨(declaration_section_guard_forbids_outside_window 1 "g-cloud-7" "expired" none
      sampleManifest "sec" [] (by decide)).1,
   (declaration_section_guard_forbids_outside_window 1 "g-cloud-7" "expired" none
      sampleManifest "sec" [] (by decide)).2.2.2.1⟩

/-- C6: when the manifest section reports no changes between the stored and
the posted answers, the POST handler issues no `set_supplier_declaration`
write and redirects to the declaration view. -/
theorem update_declaration_unchanged_issues_no_write
    (supplier_id : Nat) (framework_slug : String) (frameworkStatus : String)
    (storedDeclaration : Option (List (String × String)))
    (manifest : DeclarationManifest) (section_id : String) (form : List (String × String))
    (sec : ManifestSection)
    (hStatus : frameworkStatus ∈ ["pending", "standstill", "live"])
    (hSec : (manifest.filter (storedDeclaration.getD [])).get_section section_id = some sec)
    (hNoChanges : sec.has_changes_to_save (storedDeclaration.getD [])
      (sec.get_data form) = false) :
    (∀ sid fs d, Event.setSupplierDeclaration sid fs d ∉
      (update_supplier_declaration_section supplier_id framework_slug frameworkStatus
        storedDeclaration manifest section_id form).1) ∧
    (update_supplier_declaration_section supplier_id framework_slug frameworkStatus
      storedDeclaration manifest section_id form).2 =
      Response.redirect "view_supplier_declaration" := by
  constructor
  · intro sid fs d
    simp [update_supplier_declaration_section, hStatus, hSec, hNoChanges]
  · simp [update_supplier_declaration_section, hStatus, hSec, hNoChanges]

/-- C6 witness: a live framework and a section reporting no changes. -/
theorem update_declaration_unchanged_issues_no_write_witness :
    Event.setSupplierDeclaration 1 "g-cloud-9" [] ∉
      (update_supplier_declaration_section 1 "g-cloud-9" "live" none sampleManifest
        "sec" []).1 ∧
    (update_supplier_declaration_section 1 "g-cloud-9" "live" none sampleManifest
      "sec" []).2 = Response.redirect "view_supplier_declaration" :=
  ⟨(update_declaration_unchanged_issues_no_write 1 "g-cloud-9" "live" none sampleManifest
      "sec" [] sampleSection (by decide) rfl rfl).1 1 "g-cloud-9" [],
   (update_declaration_unchanged_issues_no_write 1 "g-cloud-9" "live" none sampleManifest
      "sec" [] sampleSection (by decide) rfl rfl).2⟩

/-- C5: a POST to `toggle_supplier_services` naming a live framework for which
the filtered service query returns no services in the source status aborts
with 400 and issues no `update_service_status` call. -/
theorem toggle_services_none_in_source_status_aborts
    (supplier_id : Nat) (removeArg publishArg : Option String) (frameworkStatus : String)
    (hArgs : removeArg.isSome = true ∨ publishArg.isSome = true)
    (hLive : frameworkStatus = "live") :
    (toggle_supplier_services supplier_id removeArg publishArg frameworkStatus []).2 =
      Response.abortWith 400 ∧
    ∀ sid st, Event.updateServiceStatus sid st ∉
      (toggle_supplier_services supplier_id removeArg publishArg frameworkStatus []).1 := by
  subst hLive
  rcases removeArg with _ | r
  · rcases publishArg with _ | p
    · simp at hArgs
    · refine ⟨?_, ?_⟩ <;> simp [toggle_supplier_services]
  · refine ⟨?_, ?_⟩ <;> simp [toggle_supplier_services]

/-- C5 witness: a suspend POST with zero published services. -/
theorem toggle_services_none_in_source_status_aborts_witness :
    (toggle_supplier_services 1 (some "g-cloud-9") none "live" []).2 =
      Response.abortWith 400 ∧
    Event.updateServiceStatus "7" "disabled" ∉
      (toggle_supplier_services 1 (some "g-cloud-9") none "live" []).1 :=
  ⟨(toggle_services_none_in_source_status_aborts 1 (some "g-cloud-9") none "live"
      (Or.inl rfl) rfl).1,
   (toggle_services_none_in_source_status_aborts 1 (some "g-cloud-9") none "live"
      (Or.inl rfl) rfl).2 "7" "disabled"⟩

/-- Updating service statuses never flashes: filtering the mapped update
events for flash messages yields nothing. -/
theorem filter_isFlashMessage_map_update (l : List Service) (st : String) :
    (l.map fun s => Event.updateServiceStatus s.id st).filter isFlashMessage = [] := by
  induction l with
  | nil => rfl
  | cons a t ih => simp [List.filter_cons, isFlashMessage, ih]

/-- Characterization of the suspend path of `toggle_supplier_services` on a
live framework with a non-empty published-service list. -/
theorem toggle_suspend_trace (supplier_id : Nat) (slug : String)
    (s0 : Service) (rest : List Service) :
    toggle_supplier_services supplier_id (some slug) none "live" (s0 :: rest) =
      ([Event.getFramework slug, Event.findServices supplier_id slug "published"] ++
        (s0 :: rest).map (fun s => Event.updateServiceStatus s.id "disabled") ++
        [Event.flashMessage
          (SUPPLIER_SERVICES_REMOVED_MESSAGE s0.frameworkName s0.supplierName ++ " " ++
            SUPPLIER_SERVICES_DELAYED_INDEX_MESSAGE)],
       Response.redirect "find_supplier_services") := rfl

/-- C7: a suspend POST to `toggle_supplier_services` on a live framework with
at least one published service updates every matching service to `disabled`,
flashes exactly one message — the suspension notice (which carries the
framework name) joined with the reindex-delay notice — and redirects to the
supplier services listing. -/
theorem toggle_suspend_live_updates_all_services
    (supplier_id : Nat) (slug : String) (s0 : Service) (rest : List Service) :
    (∀ s ∈ (s0 :: rest), Event.updateServiceStatus s.id "disabled" ∈
      (toggle_supplier_services supplier_id (some slug) none "live" (s0 :: rest)).1) ∧
    Event.flashMessage
      (SUPPLIER_SERVICES_REMOVED_MESSAGE s0.frameworkName s0.supplierName ++ " " ++
        SUPPLIER_SERVICES_DELAYED_INDEX_MESSAGE) ∈
      (toggle_supplier_services supplier_id (some slug) none "live" (s0 :: rest)).1 ∧
    ((toggle_supplier_services supplier_id (some slug) none "live"
        (s0 :: rest)).1.filter isFlashMessage).length = 1 ∧
    (∃ a b, SUPPLIER_SERVICES_REMOVED_MESSAGE s0.frameworkName s0.supplierName ++ " " ++
      SUPPLIER_SERVICES_DELAYED_INDEX_MESSAGE = a ++ s0.frameworkName ++ b) ∧
    (∃ a, SUPPLIER_SERVICES_REMOVED_MESSAGE s0.frameworkName s0.supplierName ++ " " ++
      SUPPLIER_SERVICES_DELAYED_INDEX_MESSAGE = a ++ SUPPLIER_SERVICES_DELAYED_INDEX_MESSAGE) ∧
    (toggle_supplier_services supplier_id (some slug) none "live" (s0 :: rest)).2 =
      Response.redirect "find_supplier_services" := by
  refine ⟨?_, ?_, ?_, ?_, ?_, ?_⟩
  · intro s hs
    rw [toggle_suspend_trace]
    simp only [List.mem_append, List.mem_map, List.mem_singleton]
    exact Or.inl (Or.inr ⟨s, hs, rfl⟩)
  · rw [toggle_suspend_trace]
    simp
  · rw [toggle_suspend_trace]
    simp [List.filter_append, List.filter_cons, filter_isFlashMessage_map_update,
      isFlashMessage]
  · refine ⟨"You suspended all ",
      " services for ‘" ++ s0.supplierName ++ "’." ++ " " ++
        SUPPLIER_SERVICES_DELAYED_INDEX_MESSAGE, ?_⟩
    simp [SUPPLIER_SERVICES_REMOVED_MESSAGE, String.append_assoc]
  · exact ⟨SUPPLIER_SERVICES_REMOVED_MESSAGE s0.frameworkName s0.supplierName ++ " ", rfl⟩
  · rw [toggle_suspend_trace]

/-- C7 witness: two published services suspended under a live framework. -/
theorem toggle_suspend_live_updates_all_services_witness :
    Event.updateServiceStatus "1001" "disabled" ∈
      (toggle_supplier_services 1 (some "g-cloud-9") none "live"
        [⟨"1001", "ACME Ltd", "G-Cloud 9"⟩, ⟨"1002", "ACME Ltd", "G-Cloud 9"⟩]).1 ∧
    (toggle_supplier_services 1 (some "g-cloud-9") none "live"
      [⟨"1001", "ACME Ltd", "G-Cloud 9"⟩, ⟨"1002", "ACME Ltd", "G-Cloud 9"⟩]).2 =
      Response.redirect "find_supplier_services" :=
  ⟨(toggle_suspend_live_updates_all_services 1 "g-cloud-9" ⟨"1001", "ACME Ltd", "G-Cloud 9"⟩
      [⟨"1002", "ACME Ltd", "G-Cloud 9"⟩]).1 ⟨"1001", "ACME Ltd", "G-Cloud 9"⟩ (by simp),
   (toggle_suspend_live_updates_all_services 1 "g-cloud-9" ⟨"1001", "ACME Ltd", "G-Cloud 9"⟩
      [⟨"1002", "ACME Ltd", "G-Cloud 9"⟩]).2.2.2.2.2⟩

/-- C8: for a registered-company-number submission that passes form
validation, the supplier update payload populates exactly one of
`companiesHouseNumber` and `otherCompanyRegistrationNumber` and sets the
other to null, so the stored pair never ends up with both populated. -/
theorem company_number_payload_mutually_exclusive
    (f : CompanyRegistrationNumberForm)
    (h : companyRegistrationNumberFormValid f) :
    ((update_supplier_payload_for_company_number f).companiesHouseNumber ≠ none ∧
     (update_supplier_payload_for_company_number f).otherCompanyRegistrationNumber = none) ∨
    ((update_supplier_payload_for_company_number f).companiesHouseNumber = none ∧
     (update_supplier_payload_for_company_number f).otherCompanyRegistrationNumber ≠ none) := by
  rcases h with ⟨hch, _⟩ | ⟨hch, hot⟩
  · left
    rcases hf : f.companies_house_number with _ | ch
    · rw [hf] at hch
      simp [optionTruthy] at hch
    · rw [hf] at hch
      simp only [optionTruthy, Bool.not_eq_true'] at hch
      have hne : ch ≠ "" := by
        intro hc
        rw [hc] at hch
        simp at hch
      simp [update_supplier_payload_for_company_number, hf, hne]
  · right
    rcases ho : f.other_company_registration_number with _ | ot
    · rw [ho] at hot
      simp [optionTruthy] at hot
    · rcases hf : f.companies_house_number with _ | ch
      · simp [update_supplier_payload_for_company_number, hf, ho]
      · rw [hf] at hch
        simp only [optionTruthy, Bool.not_eq_false] at hch
        have hce : ch = "" := by
          by_contra hc
          simp [hc] at hch
        simp [update_supplier_payload_for_company_number, hf, hce, ho]

/-- C8 witness: a Companies-House-number submission. -/
theorem company_number_payload_mutually_exclusive_witness :
    companyRegistrationNumberFormValid
      { companies_house_number := some "ab123456", other_company_registration_number := none } ∧
    (((update_supplier_payload_for_company_number
        { companies_house_number := some "ab123456",
          other_company_registration_number := none }).companiesHouseNumber ≠ none ∧
      (update_supplier_payload_for_company_number
        { companies_house_number := some "ab123456",
          other_company_registration_number := none }).otherCompanyRegistrationNumber = none) ∨
     ((update_supplier_payload_for_company_number
        { companies_house_number := some "ab123456",
          other_company_registration_number := none }).companiesHouseNumber = none ∧
      (update_supplier_payload_for_company_number
        { companies_house_number := some "ab123456",
          other_company_registration_number := none }).otherCompanyRegistrationNumber ≠ none)) :=
  ⟨Or.inl (by decide),
   company_number_payload_mutually_exclusive
     { companies_house_number := some "ab123456", other_company_registration_number := none }
     (Or.inl (by decide))⟩

/-- C9: in the mapping built by `find_supplier_draft_services`, a framework
whose "edit_service_as_admin" manifest cannot be loaded contributes no entry
at all, while every framework whose manifest loads contributes its drafts
annotated with their `unansweredRequiredCount`. -/
theorem draft_services_manifest_missing_omitted
    (get_manifest : String → Option AdminServiceManifest)
    (groups : List (String × List DraftService)) :
    (∀ slug, get_manifest slug = none →
      ∀ annotated, (slug, annotated) ∉ frameworks_draft_services get_manifest groups) ∧
    (∀ g ∈ groups, ∀ m, get_manifest g.1 = some m →
      (g.1, g.2.map fun d =>
        ({ draft := d, unansweredRequiredCount := m.countUnanswered d } :
          AnnotatedDraftService)) ∈ frameworks_draft_services get_manifest groups) := by
  constructor
  · intro slug hnone annotated hmem
    rw [frameworks_draft_services, List.mem_filterMap] at hmem
    obtain ⟨g, _, hfg⟩ := hmem
    rw [_draft_services_annotated_unanswered_counts] at hfg
    cases hm : get_manifest g.1 with
    | none =>
      rw [hm] at hfg
      simp at hfg
    | some m =>
      rw [hm] at hfg
      simp only [Option.some.injEq, Prod.mk.injEq] at hfg
      obtain ⟨h1, _⟩ := hfg
      rw [h1] at hm
      rw [hm] at hnone
      exact Option.noConfusion hnone
  · intro g hg m hm
    rw [frameworks_draft_services, List.mem_filterMap]
    refine ⟨g, hg, ?_⟩
    rw [_draft_services_annotated_unanswered_counts, hm]

/-- C9 witness: a two-framework grouping where only one manifest exists. -/
theorem draft_services_manifest_missing_omitted_witness :
    ("digital-outcomes",
      [({ draft := { frameworkSlug := "digital-outcomes", createdAt := "2020-01-02",
                     content := [] },
          unansweredRequiredCount := 0 } : AnnotatedDraftService)]) ∉
      frameworks_draft_services
        (fun slug => if slug = "g-cloud-9" then
          some { countUnanswered := fun _ => 2 } else none)
        [("digital-outcomes",
           [{ frameworkSlug := "digital-outcomes", createdAt := "2020-01-02", content := [] }]),
         ("g-cloud-9",
           [{ frameworkSlug := "g-cloud-9", createdAt := "2020-01-01", content := [] }])] ∧
    ("g-cloud-9",
      [({ draft := { frameworkSlug := "g-cloud-9", createdAt := "2020-01-01", content := [] },
          unansweredRequiredCount := 2 } : AnnotatedDraftService)]) ∈
      frameworks_draft_services
        (fun slug => if slug = "g-cloud-9" then
          some { countUnanswered := fun _ => 2 } else none)
        [("digital-outcomes",
           [{ frameworkSlug := "digital-outcomes", createdAt := "2020-01-02", content := [] }]),
         ("g-cloud-9",
           [{ frameworkSlug := "g-cloud-9", createdAt := "2020-01-01", content := [] }])] :=
  ⟨(draft_services_manifest_missing_omitted _ _).1 "digital-outcomes" (by simp) _,
   (draft_services_manifest_missing_omitted _ _).2
     ("g-cloud-9",
       [{ frameworkSlug := "g-cloud-9", createdAt := "2020-01-01", content := [] }])
     (by simp) { countUnanswered := fun _ => 2 } (by simp)⟩

end DMAdminSuppliers
